import Mathlib

/-!
Shallow embedding of the audio playback core of `src/App.jsx` (a React
component using Howler).  React state hooks and mutable refs are modelled as
fields of an explicit `AppState` record.  Every Howl created for background
music is kept in the `sounds` store so that events (completion, fade, timer)
can still be delivered to superseded channels; `bgmRef` is the index of the
channel currently referenced by the component's `bgmRef` ref.

React semantics modelled faithfully:
* an event handler reads the *render snapshot* of `currentBgmCategory` (the
  closure-captured `const` of the render in which the handler was created),
  while refs (`queueRef`, `queueIndexRef`, `bgmRef`) are read and written
  live;
* an `onend` callback calls the `playTrackInQueue` closure of the render in
  which its Howl was created, so the snapshot it reads is recorded in the
  `Sound` at creation time (`snapshotCat`);
* the ducking `useEffect` (deps `[isSpeaking, currentBgmCategory]`) reruns
  after an event exactly when one of its dependencies changed.

Volumes are exact rationals; fades are recorded as `(from, to, durationMs)`
targets (Howler supersedes an in-flight fade when a new one is issued).
The asset table is a parameter `BgmMap` of the transition functions (the
source closes over the constant `ASSETS`); `ASSETS_bgm` below is the
concrete table from the source.
-/

/-- One step of the Fisher-Yates loop body of `shuffleArray`:
`[newArr[i], newArr[j]] = [newArr[j], newArr[i]]` (identity when an index is
out of range, which the loop never produces). -/
def listSwap {α : Type} (l : List α) (i j : Nat) : List α :=
  match l[i]?, l[j]? with
  | some x, some y => (l.set i y).set j x
  | _, _ => l

/-- The descending loop `for (let i = newArr.length - 1; i > 0; i--)` of
`shuffleArray`.  `rnd` supplies one random draw per iteration;
`j = Math.floor(Math.random() * (i + 1))` is modelled as `rnd.head % (i+1)`. -/
def shuffleAux {α : Type} : List Nat → List α → Nat → List α
  | _, arr, 0 => arr
  | rnd, arr, i + 1 =>
    let r := rnd.headD 0
    let j := r % (i + 2)
    shuffleAux rnd.tail (listSwap arr (i + 1) j) i

/-- `shuffleArray` from the source: copy the input (`[...array]`), then run
the Fisher-Yates loop from index `length - 1` down to `1`. -/
def shuffleArray {α : Type} (rnd : List Nat) (array : List α) : List α :=
  shuffleAux rnd array (array.length - 1)

/-- One Howl created by `playTrackInQueue`, together with the data its
callbacks closed over. -/
structure Sound where
  /-- the `src` URL the Howl was created with -/
  track : String
  /-- the `category` argument captured by the `onend` closure -/
  categoryArg : String
  /-- the render snapshot of `currentBgmCategory` captured by the
  `playTrackInQueue` closure that the `onend` callback will invoke -/
  snapshotCat : Option String
  /-- whether the `onend` handler is still attached (`off('end')` clears it) -/
  hasEnd : Bool
  /-- whether the sound is still playing -/
  playing : Bool
  /-- whether `unload()` has been called -/
  unloaded : Bool
  /-- current volume (updated when a fade completes) -/
  volume : Rat
  /-- in-flight fade `(from, to, durationMs)`, superseded by a new `fade` call -/
  fade : Option (Rat × Rat × Nat)
  /-- a pending `setTimeout(stop/unload, d)` scheduled by `stopBgm` -/
  pendingStop : Option Nat
  deriving DecidableEq, Repr

/-- The component state: React state hooks plus the mutable refs. -/
structure AppState where
  /-- every music Howl ever created, in creation order -/
  sounds : List Sound
  /-- `bgmRef.current`, as an index into `sounds` -/
  bgmRef : Option Nat
  /-- `currentBgmCategory` state -/
  currentBgmCategory : Option String
  /-- `queueRef.current` -/
  queue : List String
  /-- `queueIndexRef.current` -/
  queueIndex : Nat
  /-- `isSpeaking` state -/
  isSpeaking : Bool
  /-- `isLoadingTTS` state -/
  isLoadingTTS : Bool
  /-- `apiKey` state -/
  apiKey : String
  /-- `narratorText` state -/
  narratorText : String
  /-- number of narration Howls created by `playAudioFromBase64` -/
  narrCreated : Nat
  /-- number of provider `fetch` calls issued by `handleNarrate` -/
  fetchCount : Nat
  /-- messages surfaced to the user via `alert` -/
  alerts : List String
  deriving DecidableEq, Repr

/-- Initial component state (no stored API key). -/
def initState : AppState :=
  { sounds := [], bgmRef := none, currentBgmCategory := none, queue := [],
    queueIndex := 0, isSpeaking := false, isLoadingTTS := false, apiKey := "",
    narratorText := "", narrCreated := 0, fetchCount := 0, alerts := [] }

/-- A TrackSet configuration: category name to list of resource URLs. -/
def BgmMap := String → Option (List String)

/-- The concrete `ASSETS.bgm` table from the source. -/
def ASSETS_bgm : BgmMap := fun c =>
  if c = "battle" then some ["/assets/battle1.mp3", "/assets/battle2.mp3"]
  else if c = "thrill" then some ["/assets/thrill_theme.mp3"]
  else if c = "serene" then some ["/assets/rain.mp3", "/assets/wind.mp3"]
  else none

/-- Apply `f` to the sound at index `i` of the store (identity if absent). -/
def modifySound (s : AppState) (i : Nat) (f : Sound → Sound) : AppState :=
  match s.sounds[i]? with
  | some snd => { s with sounds := s.sounds.set i (f snd) }
  | none => s

/-- What `stopBgm` does to the referenced sound: `off('end')`,
`fade(volume(), 0, 1000)`, and schedule the `setTimeout` of `1000` ms. -/
def detachSound (snd : Sound) : Sound :=
  { snd with hasEnd := false, fade := some (snd.volume, 0, 1000),
             pendingStop := some 1000 }

/-- `stopBgm` from the source: if a music channel is referenced, remove its
`end` handler, fade it from its current volume to `0` over `1000` ms,
schedule `stop(); unload()` after `1000` ms, and clear `bgmRef`.
`currentBgmCategory` is deliberately left unchanged. -/
def stopBgm (s : AppState) : AppState :=
  match s.bgmRef with
  | none => s
  | some i => { modifySound s i detachSound with bgmRef := none }

/-- `const targetVol = isSpeaking ? 0.2 : 1.0` from the ducking effect. -/
def duckTarget (speaking : Bool) : Rat :=
  if speaking then 1/5 else 1

/-- The body of the ducking `useEffect`: no-op when `bgmRef.current` is null,
otherwise fade the referenced channel from its current volume to the
ducking target over `500` ms. -/
def runDuckingEffect (s : AppState) : AppState :=
  match s.bgmRef with
  | none => s
  | some i =>
    modifySound s i (fun snd =>
      { snd with fade := some (snd.volume, duckTarget s.isSpeaking, 500) })

/-- The Howl built by `playTrackInQueue`: `src` is
`queueRef.current[queueIndexRef.current]`, initial volume `0`, `onend`
attached, with the closure data it captures. -/
def newTrackSound (snap : Option String) (category : String)
    (s : AppState) : Sound :=
  { track := s.queue.getD s.queueIndex "", categoryArg := category,
    snapshotCat := snap, hasEnd := true, playing := true, unloaded := false,
    volume := 0, fade := some (0, 1, 2000), pendingStop := none }

/-- The Howl creation tail of `playTrackInQueue` (after the guard):
`new Howl({src, volume: 0, onend})`, `play()`, `fade(0, 1.0, 2000)`,
`bgmRef.current = sound`. -/
def createTrack (snap : Option String) (category : String)
    (s : AppState) : AppState :=
  { s with sounds := s.sounds ++ [newTrackSound snap category s],
           bgmRef := some s.sounds.length }

/-- The state after the successful lookup steps of `startPlaylist`:
old channel detached by `stopBgm`, `setCurrentBgmCategory(category)`,
`queueRef.current = shuffleArray(tracks)`, `queueIndexRef.current = 0`. -/
def activateState (rnd : List Nat) (category : String) (tracks : List String)
    (s : AppState) : AppState :=
  { stopBgm s with currentBgmCategory := some category,
                   queue := shuffleArray rnd tracks, queueIndex := 0 }

/-- `playTrackInQueue(category)` as invoked with render snapshot `snap` of
`currentBgmCategory`: guard `if (currentBgmCategory && currentBgmCategory
!== category) return;`, then create, play and fade the next Howl. -/
def playTrackInQueue (snap : Option String) (category : String)
    (s : AppState) : AppState :=
  match snap with
  | some a => if a ≠ category then s else createTrack snap category s
  | none => createTrack snap category s

/-- `startPlaylist(category)`, as one complete event: the handler body
(`stopBgm()`; track lookup with silent early return; `setCurrentBgmCategory`;
fresh shuffle into `queueRef`; `queueIndexRef = 0`; `playTrackInQueue`)
followed by the ducking effect rerun when `currentBgmCategory` changed.
`snap` is the render snapshot the handler and `playTrackInQueue` read. -/
def startPlaylist (assets : BgmMap) (rnd : List Nat) (category : String)
    (s0 : AppState) : AppState :=
  let snap := s0.currentBgmCategory
  let s1 := stopBgm s0
  match assets category with
  | none => s1
  | some tracks =>
    if tracks.length = 0 then s1
    else
      let s3 := playTrackInQueue snap category (activateState rnd category tracks s0)
      if snap = some category then s3 else runDuckingEffect s3

/-- A sound whose natural playback just finished. -/
def markEnded (t : Sound) : Sound :=
  { t with playing := false }

/-- The queue stepping of the `onend` closure: `queueIndexRef.current++`,
then wrap to `0` when it reaches `queueRef.current.length` (`DO NOT
RESHUFFLE HERE`: the queue itself is untouched). -/
def advanceQueue (s : AppState) : AppState :=
  if s.queue.length ≤ s.queueIndex + 1
  then { s with queueIndex := 0 }
  else { s with queueIndex := s.queueIndex + 1 }

/-- Natural end of playback of sound `i`.  A sound that is not playing (or
was unloaded) produces nothing.  If the `end` handler was removed the sound
merely stops.  Otherwise the `onend` closure runs: advance and wrap the
cursor, then call the creation render's `playTrackInQueue` with the captured
category. -/
def endEvent (i : Nat) (s : AppState) : AppState :=
  match s.sounds[i]? with
  | none => s
  | some snd =>
    if snd.playing = false ∨ snd.unloaded = true then s
    else
      let s1 := modifySound s i markEnded
      if snd.hasEnd then
        playTrackInQueue snd.snapshotCat snd.categoryArg (advanceQueue s1)
      else s1

/-- Expiry of the `setTimeout` scheduled by `stopBgm`: `stop()` then
`unload()` the sound (this also cancels any in-flight fade). -/
def timerFire (i : Nat) (s : AppState) : AppState :=
  match s.sounds[i]? with
  | none => s
  | some snd =>
    match snd.pendingStop with
    | none => s
    | some _ =>
      modifySound s i (fun t =>
        { t with playing := false, unloaded := true, fade := none,
                 pendingStop := none })

/-- Completion of an in-flight fade: the volume reaches the fade target. -/
def fadeDone (i : Nat) (s : AppState) : AppState :=
  match s.sounds[i]? with
  | none => s
  | some snd =>
    match snd.fade with
    | none => s
    | some (_, t, _) =>
      modifySound s i (fun u => { u with volume := t, fade := none })

/-- `handleStopClick`: `stopBgm()` then `setCurrentBgmCategory(null)`,
followed by the ducking effect rerun when the category changed (a no-op
there, since `bgmRef` is already null). -/
def handleStopClick (s : AppState) : AppState :=
  if s.currentBgmCategory = none
  then { stopBgm s with currentBgmCategory := none }
  else runDuckingEffect { stopBgm s with currentBgmCategory := none }

/-- A `setIsSpeaking(b)` transition (narrator `onplay` and `onend` handlers),
followed by the ducking effect, which reruns exactly when the flag actually
changed. -/
def setSpeaking (b : Bool) (s : AppState) : AppState :=
  if s.isSpeaking = b then s else runDuckingEffect { s with isSpeaking := b }

/-- `playAudioFromBase64`: decode the payload, unload any previous narrator
channel and create and play a fresh narration Howl.  Only the creation count
is tracked here. -/
def playAudioFromBase64 (s : AppState) : AppState :=
  { s with narrCreated := s.narrCreated + 1 }

/-- `handleNarrate` for one completed round trip, with the provider outcome
(`data.error` present, or a decodable `audioContent`) as a parameter:
reject with an alert when `apiKey` is empty, silently when `narratorText` is
empty; otherwise set the loading flag, issue the `fetch`, and on error alert
with the provider message; the `finally` clause clears the loading flag. -/
def handleNarrate (resp : Except String Unit) (s : AppState) : AppState :=
  if s.apiKey = "" then
    { s with alerts := s.alerts ++ ["Please enter a Google Cloud API Key first."] }
  else if s.narratorText = "" then s
  else
    match resp with
    | Except.error msg =>
      { { s with isLoadingTTS := true, fetchCount := s.fetchCount + 1 } with
          alerts := s.alerts ++ ["Error: " ++ msg], isLoadingTTS := false }
    | Except.ok _ =>
      { playAudioFromBase64
          { s with isLoadingTTS := true, fetchCount := s.fetchCount + 1 } with
          isLoadingTTS := false }

/-- `saveKey` (the credential input): store a new API key. -/
def setApiKey (k : String) (s : AppState) : AppState :=
  { s with apiKey := k }

/-- Editing the narration textarea. -/
def setNarratorText (t : String) (s : AppState) : AppState :=
  { s with narratorText := t }

/-- Deliver the completion of the currently referenced music channel. -/
def fireEnd (s : AppState) : AppState :=
  match s.bgmRef with
  | none => s
  | some i => endEvent i s

/-- States reachable from the initial state by user events, completion
callbacks, fade completions and the `stopBgm` timers. -/
inductive Reachable (assets : BgmMap) : AppState → Prop where
  | init : Reachable assets initState
  | start : ∀ s rnd c, Reachable assets s →
      Reachable assets (startPlaylist assets rnd c s)
  | stopClick : ∀ s, Reachable assets s →
      Reachable assets (handleStopClick s)
  | ended : ∀ s i, Reachable assets s → Reachable assets (endEvent i s)
  | timer : ∀ s i, Reachable assets s → Reachable assets (timerFire i s)
  | fadeEnd : ∀ s i, Reachable assets s → Reachable assets (fadeDone i s)
  | speak : ∀ s b, Reachable assets s → Reachable assets (setSpeaking b s)
  | narrate : ∀ s r, Reachable assets s →
      Reachable assets (handleNarrate r s)
  | key : ∀ s k, Reachable assets s → Reachable assets (setApiKey k s)
  | text : ∀ s t, Reachable assets s →
      Reachable assets (setNarratorText t s)

/-- The live-channel invariant: any sound that is still playing with its
`end` handler attached is the sound referenced by `bgmRef`, and its captured
category is the current one. -/
@[reducible] def LiveInv (s : AppState) : Prop :=
  ∀ (i : Nat) (snd : Sound), s.sounds[i]? = some snd → snd.playing = true →
    snd.hasEnd = true →
    s.bgmRef = some i ∧ s.currentBgmCategory = some snd.categoryArg

/-- A state in which the completion chain of the active playlist can keep
running: the referenced channel is playing, its `end` handler is attached,
and its captured render snapshot lets the `playTrackInQueue` guard pass. -/
@[reducible] def ChainOk (k : Nat) (s : AppState) : Prop :=
  s.queue.length = k ∧ ∃ (i : Nat) (snd : Sound), s.bgmRef = some i ∧
    s.sounds[i]? = some snd ∧ snd.playing = true ∧ snd.unloaded = false ∧
    snd.hasEnd = true ∧
    (snd.snapshotCat = none ∨ snd.snapshotCat = some snd.categoryArg)

/-! ### Permutation facts about the shuffle -/

theorem cons_set_perm {α : Type} : ∀ (t : List α) (m : Nat) (y a : α),
    t[m]? = some y → List.Perm (y :: t.set m a) (a :: t)
  | b :: t, 0, y, a, h => by
    rw [List.getElem?_cons_zero, Option.some.injEq] at h
    show List.Perm (y :: a :: t) (a :: b :: t)
    rw [h]
    exact List.Perm.swap a y t
  | b :: t, m + 1, y, a, h => by
    rw [List.getElem?_cons_succ] at h
    show List.Perm (y :: b :: t.set m a) (a :: b :: t)
    exact ((List.Perm.swap b y _).trans
      (List.Perm.cons b (cons_set_perm t m y a h))).trans (List.Perm.swap a b t)

theorem set_set_perm {α : Type} : ∀ (l : List α) (i j : Nat) (x y : α),
    l[i]? = some x → l[j]? = some y →
    List.Perm ((l.set i y).set j x) l
  | a :: t, 0, 0, x, y, h1, _h2 => by
    rw [List.getElem?_cons_zero, Option.some.injEq] at h1
    show List.Perm (x :: t) (a :: t)
    rw [← h1]
  | a :: t, 0, m + 1, x, y, h1, h2 => by
    rw [List.getElem?_cons_zero, Option.some.injEq] at h1
    rw [List.getElem?_cons_succ] at h2
    show List.Perm (y :: t.set m x) (a :: t)
    rw [h1]
    exact cons_set_perm t m y x h2
  | a :: t, n + 1, 0, x, y, h1, h2 => by
    rw [List.getElem?_cons_succ] at h1
    rw [List.getElem?_cons_zero, Option.some.injEq] at h2
    show List.Perm (x :: t.set n y) (a :: t)
    rw [h2]
    exact cons_set_perm t n x y h1
  | a :: t, n + 1, m + 1, x, y, h1, h2 => by
    rw [List.getElem?_cons_succ] at h1 h2
    show List.Perm (a :: (t.set n y).set m x) (a :: t)
    exact List.Perm.cons a (set_set_perm t n m x y h1 h2)

theorem listSwap_perm {α : Type} (l : List α) (i j : Nat) :
    List.Perm (listSwap l i j) l := by
  unfold listSwap
  cases hi : l[i]? with
  | none => exact List.Perm.refl l
  | some x =>
    cases hj : l[j]? with
    | none => exact List.Perm.refl l
    | some y => exact set_set_perm l i j x y hi hj

theorem shuffleAux_perm {α : Type} :
    ∀ (rnd : List Nat) (arr : List α) (i : Nat),
    List.Perm (shuffleAux rnd arr i) arr
  | _, arr, 0 => List.Perm.refl arr
  | rnd, arr, i + 1 =>
    (shuffleAux_perm rnd.tail (listSwap arr (i + 1) (rnd.headD 0 % (i + 2))) i).trans
      (listSwap_perm arr (i + 1) (rnd.headD 0 % (i + 2)))

/-! ### Field preservation for the state helpers -/

theorem modifySound_eta (s : AppState) (i : Nat) (f : Sound → Sound) :
    modifySound s i f =
      match s.sounds[i]? with
      | some snd => { s with sounds := s.sounds.set i (f snd) }
      | none => s := rfl

@[simp] theorem modifySound_bgmRef (s : AppState) (i : Nat) (f : Sound → Sound) :
    (modifySound s i f).bgmRef = s.bgmRef := by
  unfold modifySound; cases s.sounds[i]? <;> rfl

@[simp] theorem modifySound_category (s : AppState) (i : Nat) (f : Sound → Sound) :
    (modifySound s i f).currentBgmCategory = s.currentBgmCategory := by
  unfold modifySound; cases s.sounds[i]? <;> rfl

@[simp] theorem modifySound_queue (s : AppState) (i : Nat) (f : Sound → Sound) :
    (modifySound s i f).queue = s.queue := by
  unfold modifySound; cases s.sounds[i]? <;> rfl

@[simp] theorem modifySound_queueIndex (s : AppState) (i : Nat) (f : Sound → Sound) :
    (modifySound s i f).queueIndex = s.queueIndex := by
  unfold modifySound; cases s.sounds[i]? <;> rfl

@[simp] theorem modifySound_isSpeaking (s : AppState) (i : Nat) (f : Sound → Sound) :
    (modifySound s i f).isSpeaking = s.isSpeaking := by
  unfold modifySound; cases s.sounds[i]? <;> rfl

@[simp] theorem modifySound_isLoadingTTS (s : AppState) (i : Nat) (f : Sound → Sound) :
    (modifySound s i f).isLoadingTTS = s.isLoadingTTS := by
  unfold modifySound; cases s.sounds[i]? <;> rfl

@[simp] theorem modifySound_alerts (s : AppState) (i : Nat) (f : Sound → Sound) :
    (modifySound s i f).alerts = s.alerts := by
  unfold modifySound; cases s.sounds[i]? <;> rfl

@[simp] theorem modifySound_narrCreated (s : AppState) (i : Nat) (f : Sound → Sound) :
    (modifySound s i f).narrCreated = s.narrCreated := by
  unfold modifySound; cases s.sounds[i]? <;> rfl

@[simp] theorem modifySound_length (s : AppState) (i : Nat) (f : Sound → Sound) :
    (modifySound s i f).sounds.length = s.sounds.length := by
  unfold modifySound
  cases s.sounds[i]? <;> simp

theorem modifySound_get_self (s : AppState) (i : Nat) (f : Sound → Sound) :
    (modifySound s i f).sounds[i]? = (s.sounds[i]?).map f := by
  unfold modifySound
  cases h : s.sounds[i]? with
  | none => simp [h]
  | some snd =>
    obtain ⟨hlt, -⟩ := List.getElem?_eq_some.mp h
    simp [List.getElem?_set_self hlt]

theorem modifySound_get_other (s : AppState) (i j : Nat) (f : Sound → Sound)
    (hij : i ≠ j) : (modifySound s i f).sounds[j]? = s.sounds[j]? := by
  unfold modifySound
  cases h : s.sounds[i]? with
  | none => rfl
  | some snd => simp [List.getElem?_set_ne hij]

@[simp] theorem stopBgm_bgmRef (s : AppState) : (stopBgm s).bgmRef = none := by
  unfold stopBgm
  cases h : s.bgmRef with
  | none => exact h
  | some i => rfl

@[simp] theorem stopBgm_category (s : AppState) :
    (stopBgm s).currentBgmCategory = s.currentBgmCategory := by
  unfold stopBgm
  cases s.bgmRef with
  | none => rfl
  | some i => simp

@[simp] theorem stopBgm_queue (s : AppState) : (stopBgm s).queue = s.queue := by
  unfold stopBgm
  cases s.bgmRef with
  | none => rfl
  | some i => simp

@[simp] theorem stopBgm_queueIndex (s : AppState) :
    (stopBgm s).queueIndex = s.queueIndex := by
  unfold stopBgm
  cases s.bgmRef with
  | none => rfl
  | some i => simp

@[simp] theorem stopBgm_isSpeaking (s : AppState) :
    (stopBgm s).isSpeaking = s.isSpeaking := by
  unfold stopBgm
  cases s.bgmRef with
  | none => rfl
  | some i => simp

@[simp] theorem stopBgm_alerts (s : AppState) : (stopBgm s).alerts = s.alerts := by
  unfold stopBgm
  cases s.bgmRef with
  | none => rfl
  | some i => simp

@[simp] theorem stopBgm_length (s : AppState) :
    (stopBgm s).sounds.length = s.sounds.length := by
  unfold stopBgm
  cases s.bgmRef with
  | none => rfl
  | some i => simp

theorem stopBgm_get_bgm (s : AppState) (i : Nat) (h : s.bgmRef = some i) :
    (stopBgm s).sounds[i]? = (s.sounds[i]?).map detachSound := by
  unfold stopBgm
  rw [h]
  exact modifySound_get_self s i detachSound

theorem stopBgm_get_other (s : AppState) (j : Nat)
    (h : ∀ i, s.bgmRef = some i → i ≠ j) :
    (stopBgm s).sounds[j]? = s.sounds[j]? := by
  unfold stopBgm
  cases hr : s.bgmRef with
  | none => rfl
  | some i => exact modifySound_get_other s i j detachSound (h i hr)

@[simp] theorem runDuckingEffect_bgmRef (s : AppState) :
    (runDuckingEffect s).bgmRef = s.bgmRef := by
  unfold runDuckingEffect
  cases h : s.bgmRef with
  | none => simp [h]
  | some i => simp [h]

@[simp] theorem runDuckingEffect_category (s : AppState) :
    (runDuckingEffect s).currentBgmCategory = s.currentBgmCategory := by
  unfold runDuckingEffect
  cases s.bgmRef with
  | none => rfl
  | some i => simp

@[simp] theorem runDuckingEffect_queue (s : AppState) :
    (runDuckingEffect s).queue = s.queue := by
  unfold runDuckingEffect
  cases s.bgmRef with
  | none => rfl
  | some i => simp

@[simp] theorem runDuckingEffect_queueIndex (s : AppState) :
    (runDuckingEffect s).queueIndex = s.queueIndex := by
  unfold runDuckingEffect
  cases s.bgmRef with
  | none => rfl
  | some i => simp

@[simp] theorem runDuckingEffect_isSpeaking (s : AppState) :
    (runDuckingEffect s).isSpeaking = s.isSpeaking := by
  unfold runDuckingEffect
  cases s.bgmRef with
  | none => rfl
  | some i => simp

@[simp] theorem runDuckingEffect_length (s : AppState) :
    (runDuckingEffect s).sounds.length = s.sounds.length := by
  unfold runDuckingEffect
  cases s.bgmRef with
  | none => rfl
  | some i => simp

theorem playTrackInQueue_pass (snap : Option String) (category : String)
    (s : AppState) (h : snap = none ∨ snap = some category) :
    playTrackInQueue snap category s = createTrack snap category s := by
  unfold playTrackInQueue
  rcases h with h | h <;> rw [h]
  simp

theorem playTrackInQueue_blocked (a category : String) (s : AppState)
    (h : a ≠ category) :
    playTrackInQueue (some a) category s = s := by
  unfold playTrackInQueue
  simp [h]

theorem endEvent_no_sound (i : Nat) (s : AppState) (h : s.sounds[i]? = none) :
    endEvent i s = s := by
  unfold endEvent
  rw [h]

theorem endEvent_dead (i : Nat) (s : AppState) (snd : Sound)
    (h : s.sounds[i]? = some snd)
    (hd : snd.playing = false ∨ snd.unloaded = true) :
    endEvent i s = s := by
  unfold endEvent
  rw [h]
  simp [hd]

theorem endEvent_detached (i : Nat) (s : AppState) (snd : Sound)
    (h : s.sounds[i]? = some snd) (hp : snd.playing = true)
    (hu : snd.unloaded = false) (he : snd.hasEnd = false) :
    endEvent i s = modifySound s i markEnded := by
  unfold endEvent
  rw [h]
  simp [hp, hu, he]

theorem endEvent_live (i : Nat) (s : AppState) (snd : Sound)
    (h : s.sounds[i]? = some snd) (hp : snd.playing = true)
    (hu : snd.unloaded = false) (he : snd.hasEnd = true) :
    endEvent i s =
      playTrackInQueue snd.snapshotCat snd.categoryArg
        (advanceQueue (modifySound s i markEnded)) := by
  unfold endEvent
  rw [h]
  simp [hp, hu, he]

@[simp] theorem createTrack_sounds (snap : Option String) (c : String) (s : AppState) :
    (createTrack snap c s).sounds = s.sounds ++ [newTrackSound snap c s] := rfl

@[simp] theorem createTrack_bgmRef (snap : Option String) (c : String) (s : AppState) :
    (createTrack snap c s).bgmRef = some s.sounds.length := rfl

@[simp] theorem createTrack_category (snap : Option String) (c : String) (s : AppState) :
    (createTrack snap c s).currentBgmCategory = s.currentBgmCategory := rfl

@[simp] theorem createTrack_queue (snap : Option String) (c : String) (s : AppState) :
    (createTrack snap c s).queue = s.queue := rfl

@[simp] theorem createTrack_queueIndex (snap : Option String) (c : String) (s : AppState) :
    (createTrack snap c s).queueIndex = s.queueIndex := rfl

@[simp] theorem createTrack_isSpeaking (snap : Option String) (c : String) (s : AppState) :
    (createTrack snap c s).isSpeaking = s.isSpeaking := rfl

@[simp] theorem advanceQueue_sounds (s : AppState) :
    (advanceQueue s).sounds = s.sounds := by
  unfold advanceQueue
  split <;> rfl

@[simp] theorem advanceQueue_bgmRef (s : AppState) :
    (advanceQueue s).bgmRef = s.bgmRef := by
  unfold advanceQueue
  split <;> rfl

@[simp] theorem advanceQueue_category (s : AppState) :
    (advanceQueue s).currentBgmCategory = s.currentBgmCategory := by
  unfold advanceQueue
  split <;> rfl

@[simp] theorem advanceQueue_queue (s : AppState) :
    (advanceQueue s).queue = s.queue := by
  unfold advanceQueue
  split <;> rfl

@[simp] theorem advanceQueue_isSpeaking (s : AppState) :
    (advanceQueue s).isSpeaking = s.isSpeaking := by
  unfold advanceQueue
  split <;> rfl

theorem advanceQueue_queueIndex (s : AppState) :
    (advanceQueue s).queueIndex =
      if s.queue.length ≤ s.queueIndex + 1 then 0 else s.queueIndex + 1 := by
  unfold advanceQueue
  split <;> simp_all

/-- No sound in the store is still playing with its `end` handler attached. -/
@[reducible] def NoLive (s : AppState) : Prop :=
  ∀ (j : Nat) (snd : Sound), s.sounds[j]? = some snd → snd.playing = true →
    snd.hasEnd = true → False

theorem noLive_liveInv (s : AppState) (h : NoLive s) : LiveInv s :=
  fun i snd hg hp he => (h i snd hg hp he).elim

theorem stopBgm_noLive (s : AppState) (hinv : LiveInv s) : NoLive (stopBgm s) := by
  intro j snd hg hp he
  by_cases hbj : s.bgmRef = some j
  · rw [stopBgm_get_bgm s j hbj] at hg
    cases ht : s.sounds[j]? with
    | none => rw [ht] at hg; cases hg
    | some t =>
      rw [ht] at hg
      simp only [Option.map_some'] at hg
      injection hg with hg
      rw [← hg] at he
      simp [detachSound] at he
  · have hne : ∀ i, s.bgmRef = some i → i ≠ j := by
      intro i hi hij
      rw [hij] at hi
      exact hbj hi
    rw [stopBgm_get_other s j hne] at hg
    obtain ⟨hb, -⟩ := hinv j snd hg hp he
    exact hbj hb

theorem createTrack_liveInv (snap : Option String) (category : String)
    (s : AppState) (hnl : NoLive s)
    (hcat : s.currentBgmCategory = some category) :
    LiveInv (createTrack snap category s) := by
  intro j snd hg hp he
  rw [createTrack_sounds] at hg
  rcases Nat.lt_trichotomy j s.sounds.length with hlt | heq | hgt
  · rw [List.getElem?_append_left hlt] at hg
    exact (hnl j snd hg hp he).elim
  · subst heq
    rw [List.getElem?_concat_length] at hg
    injection hg with hg
    constructor
    · rw [createTrack_bgmRef]
    · rw [createTrack_category, hcat, ← hg]
      rfl
  · rw [List.getElem?_len_le (by simp; omega)] at hg
    cases hg

theorem modifySound_liveInv (s : AppState) (i : Nat) (f : Sound → Sound)
    (hf : ∀ t, (f t).playing = true → (f t).hasEnd = true →
      t.playing = true ∧ t.hasEnd = true ∧ (f t).categoryArg = t.categoryArg)
    (hinv : LiveInv s) : LiveInv (modifySound s i f) := by
  intro j snd hg hp he
  rw [modifySound_bgmRef, modifySound_category]
  by_cases hij : i = j
  · subst hij
    rw [modifySound_get_self] at hg
    cases ht : s.sounds[i]? with
    | none => rw [ht] at hg; cases hg
    | some t =>
      rw [ht] at hg
      simp only [Option.map_some'] at hg
      injection hg with hg
      rw [← hg] at hp he
      obtain ⟨htp, hte, hca⟩ := hf t hp he
      obtain ⟨hb, hc⟩ := hinv i t ht htp hte
      refine ⟨hb, ?_⟩
      rw [hc, ← hg, hca]
  · rw [modifySound_get_other s i j f hij] at hg
    exact hinv j snd hg hp he

theorem runDuckingEffect_liveInv (s : AppState) (hinv : LiveInv s) :
    LiveInv (runDuckingEffect s) := by
  unfold runDuckingEffect
  cases h : s.bgmRef with
  | none => exact hinv
  | some i => exact modifySound_liveInv s i _ (fun t htp hte => ⟨htp, hte, rfl⟩) hinv

theorem kill_noLive (s : AppState) (i : Nat) (hinv : LiveInv s)
    (hbr : s.bgmRef = some i) :
    NoLive (modifySound s i markEnded) := by
  intro j snd hg hp he
  by_cases hij : i = j
  · subst hij
    rw [modifySound_get_self] at hg
    cases ht : s.sounds[i]? with
    | none => rw [ht] at hg; cases hg
    | some t =>
      rw [ht] at hg
      simp only [Option.map_some'] at hg
      injection hg with hg
      rw [← hg] at hp
      simp [markEnded] at hp
  · rw [modifySound_get_other s i j _ hij] at hg
    obtain ⟨hb, -⟩ := hinv j snd hg hp he
    rw [hbr] at hb
    injection hb with hb
    exact hij hb

theorem startPlaylist_eq_none (assets : BgmMap) (rnd : List Nat) (c : String)
    (s : AppState) (ha : assets c = none) :
    startPlaylist assets rnd c s = stopBgm s := by
  unfold startPlaylist
  rw [ha]

theorem startPlaylist_eq_empty (assets : BgmMap) (rnd : List Nat) (c : String)
    (s : AppState) (tracks : List String) (ha : assets c = some tracks)
    (hlen : tracks.length = 0) :
    startPlaylist assets rnd c s = stopBgm s := by
  unfold startPlaylist
  rw [ha]
  simp [hlen]

theorem startPlaylist_eq_valid (assets : BgmMap) (rnd : List Nat) (c : String)
    (s : AppState) (tracks : List String) (ha : assets c = some tracks)
    (hlen : tracks.length ≠ 0) :
    startPlaylist assets rnd c s =
      (if s.currentBgmCategory = some c
       then playTrackInQueue s.currentBgmCategory c
              (activateState rnd c tracks s)
       else runDuckingEffect (playTrackInQueue s.currentBgmCategory c
              (activateState rnd c tracks s))) := by
  unfold startPlaylist
  rw [ha]
  simp [hlen]

theorem startPlaylist_liveInv (assets : BgmMap) (rnd : List Nat) (c : String)
    (s : AppState) (hinv : LiveInv s) :
    LiveInv (startPlaylist assets rnd c s) := by
  have hnl := stopBgm_noLive s hinv
  cases ha : assets c with
  | none =>
    rw [startPlaylist_eq_none assets rnd c s ha]
    exact noLive_liveInv _ hnl
  | some tracks =>
    by_cases hlen : tracks.length = 0
    · rw [startPlaylist_eq_empty assets rnd c s tracks ha hlen]
      exact noLive_liveInv _ hnl
    · rw [startPlaylist_eq_valid assets rnd c s tracks ha hlen]
      have hnl2 : NoLive (activateState rnd c tracks s) := hnl
      by_cases hsc : s.currentBgmCategory = some c
      · rw [if_pos hsc, playTrackInQueue_pass _ _ _ (Or.inr hsc)]
        exact createTrack_liveInv _ _ _ hnl2 rfl
      · rw [if_neg hsc]
        cases hsnap : s.currentBgmCategory with
        | none =>
          rw [playTrackInQueue_pass _ _ _ (Or.inl rfl)]
          exact runDuckingEffect_liveInv _ (createTrack_liveInv _ _ _ hnl2 rfl)
        | some a =>
          have hac : a ≠ c := by
            intro h
            rw [h] at hsnap
            exact hsc hsnap
          rw [playTrackInQueue_blocked a c _ hac]
          exact runDuckingEffect_liveInv _ (noLive_liveInv _ hnl2)

theorem endEvent_liveInv (i : Nat) (s : AppState) (hinv : LiveInv s) :
    LiveInv (endEvent i s) := by
  cases hg : s.sounds[i]? with
  | none =>
    rw [endEvent_no_sound i s hg]
    exact hinv
  | some snd =>
    by_cases hp : snd.playing = true
    case neg =>
      rw [endEvent_dead i s snd hg (Or.inl (by simpa using hp))]
      exact hinv
    by_cases hu : snd.unloaded = true
    · rw [endEvent_dead i s snd hg (Or.inr hu)]
      exact hinv
    · by_cases he : snd.hasEnd = true
      case neg =>
        rw [endEvent_detached i s snd hg hp (by simpa using hu) (by simpa using he)]
        exact modifySound_liveInv s i _ (fun t htp _ => absurd htp (by simp [markEnded])) hinv
      case pos =>
        obtain ⟨hbr, hcat⟩ := hinv i snd hg hp he
        rw [endEvent_live i s snd hg hp (by simpa using hu) he]
        have hnl1 : NoLive (modifySound s i markEnded) := kill_noLive s i hinv hbr
        have hnl3 : NoLive (advanceQueue (modifySound s i markEnded)) := by
          intro j t hgt hpt het
          rw [advanceQueue_sounds] at hgt
          exact hnl1 j t hgt hpt het
        have hcat3 : (advanceQueue (modifySound s i markEnded)).currentBgmCategory =
            some snd.categoryArg := by
          rw [advanceQueue_category, modifySound_category]
          exact hcat
        cases hsnap : snd.snapshotCat with
        | none =>
          rw [playTrackInQueue_pass _ _ _ (Or.inl rfl)]
          exact createTrack_liveInv _ _ _ hnl3 hcat3
        | some a =>
          by_cases hac : a = snd.categoryArg
          · rw [playTrackInQueue_pass _ _ _ (Or.inr (by rw [hac]))]
            exact createTrack_liveInv _ _ _ hnl3 hcat3
          · rw [playTrackInQueue_blocked a _ _ hac]
            exact noLive_liveInv _ hnl3

theorem timerFire_liveInv (i : Nat) (s : AppState) (hinv : LiveInv s) :
    LiveInv (timerFire i s) := by
  unfold timerFire
  cases hg : s.sounds[i]? with
  | none => exact hinv
  | some snd =>
    show LiveInv (match snd.pendingStop with
      | none => s
      | some _ => modifySound s i (fun t =>
          { t with playing := false, unloaded := true, fade := none,
                   pendingStop := none }))
    cases snd.pendingStop with
    | none => exact hinv
    | some d =>
      exact modifySound_liveInv s i _ (fun t htp _ => absurd htp (by simp)) hinv

theorem fadeDone_liveInv (i : Nat) (s : AppState) (hinv : LiveInv s) :
    LiveInv (fadeDone i s) := by
  unfold fadeDone
  cases hg : s.sounds[i]? with
  | none => exact hinv
  | some snd =>
    show LiveInv (match snd.fade with
      | none => s
      | some (_, t, _) => modifySound s i (fun u =>
          { u with volume := t, fade := none }))
    cases snd.fade with
    | none => exact hinv
    | some tr =>
      obtain ⟨f1, t1, d1⟩ := tr
      exact modifySound_liveInv s i _ (fun u hup hue => ⟨hup, hue, rfl⟩) hinv

theorem handleStopClick_liveInv (s : AppState) (hinv : LiveInv s) :
    LiveInv (handleStopClick s) := by
  have hnl := stopBgm_noLive s hinv
  unfold handleStopClick
  by_cases h : s.currentBgmCategory = none
  · rw [if_pos h]
    exact noLive_liveInv _ hnl
  · rw [if_neg h]
    exact runDuckingEffect_liveInv _ (noLive_liveInv _ hnl)

theorem setSpeaking_liveInv (b : Bool) (s : AppState) (hinv : LiveInv s) :
    LiveInv (setSpeaking b s) := by
  unfold setSpeaking
  by_cases h : s.isSpeaking = b
  · rw [if_pos h]
    exact hinv
  · rw [if_neg h]
    exact runDuckingEffect_liveInv _ hinv

theorem handleNarrate_liveInv (r : Except String Unit) (s : AppState)
    (hinv : LiveInv s) : LiveInv (handleNarrate r s) := by
  unfold handleNarrate playAudioFromBase64
  by_cases h1 : s.apiKey = ""
  · rw [if_pos h1]
    exact hinv
  · rw [if_neg h1]
    by_cases h2 : s.narratorText = ""
    · rw [if_pos h2]
      exact hinv
    · rw [if_neg h2]
      cases r with
      | error msg => exact hinv
      | ok u => exact hinv

theorem reachable_liveInv (assets : BgmMap) (s : AppState)
    (h : Reachable assets s) : LiveInv s := by
  induction h with
  | init =>
    intro i snd hg hp he
    simp [initState] at hg
  | start s rnd c hr ih => exact startPlaylist_liveInv assets rnd c s ih
  | stopClick s hr ih => exact handleStopClick_liveInv s ih
  | ended s i hr ih => exact endEvent_liveInv i s ih
  | timer s i hr ih => exact timerFire_liveInv i s ih
  | fadeEnd s i hr ih => exact fadeDone_liveInv i s ih
  | speak s b hr ih => exact setSpeaking_liveInv b s ih
  | narrate s r hr ih => exact handleNarrate_liveInv r s ih
  | key s k hr ih => exact ih
  | text s t hr ih => exact ih

theorem shuffleArray_length {α : Type} (rnd : List Nat) (l : List α) :
    (shuffleArray rnd l).length = l.length :=
  (shuffleAux_perm rnd l (l.length - 1)).length_eq

theorem endEvent_fields_of_not_live (i : Nat) (s : AppState)
    (h : ∀ snd : Sound, s.sounds[i]? = some snd → snd.hasEnd = false) :
    (endEvent i s).queue = s.queue ∧
    (endEvent i s).queueIndex = s.queueIndex ∧
    (endEvent i s).currentBgmCategory = s.currentBgmCategory ∧
    (endEvent i s).bgmRef = s.bgmRef ∧
    (endEvent i s).sounds.length = s.sounds.length := by
  cases hg : s.sounds[i]? with
  | none =>
    rw [endEvent_no_sound i s hg]
    exact ⟨rfl, rfl, rfl, rfl, rfl⟩
  | some snd =>
    have he := h snd hg
    by_cases hp : snd.playing = true
    · by_cases hu : snd.unloaded = true
      · rw [endEvent_dead i s snd hg (Or.inr hu)]
        exact ⟨rfl, rfl, rfl, rfl, rfl⟩
      · rw [endEvent_detached i s snd hg hp (by simpa using hu) he]
        exact ⟨modifySound_queue .., modifySound_queueIndex ..,
               modifySound_category .., modifySound_bgmRef ..,
               modifySound_length ..⟩
    · rw [endEvent_dead i s snd hg (Or.inl (by simpa using hp))]
      exact ⟨rfl, rfl, rfl, rfl, rfl⟩

theorem startPlaylist_detaches (assets : BgmMap) (rnd : List Nat) (c : String)
    (s : AppState) (i : Nat) (snd : Sound) (hbr : s.bgmRef = some i)
    (hg : s.sounds[i]? = some snd) :
    (startPlaylist assets rnd c s).sounds[i]? = some (detachSound snd) := by
  have hstop : (stopBgm s).sounds[i]? = some (detachSound snd) := by
    rw [stopBgm_get_bgm s i hbr, hg]
    rfl
  have hlt : i < s.sounds.length := by
    obtain ⟨hlt, -⟩ := List.getElem?_eq_some.mp hg
    exact hlt
  have hltstop : i < (stopBgm s).sounds.length := by
    rw [stopBgm_length]
    exact hlt
  cases ha : assets c with
  | none =>
    rw [startPlaylist_eq_none assets rnd c s ha]
    exact hstop
  | some tracks =>
    by_cases hlen : tracks.length = 0
    · rw [startPlaylist_eq_empty assets rnd c s tracks ha hlen]
      exact hstop
    · rw [startPlaylist_eq_valid assets rnd c s tracks ha hlen]
      have hact : (activateState rnd c tracks s).sounds[i]? = some (detachSound snd) := hstop
      have hactlen : (activateState rnd c tracks s).sounds.length = (stopBgm s).sounds.length := rfl
      have hcreate : ∀ snap2,
          (createTrack snap2 c (activateState rnd c tracks s)).sounds[i]? =
            some (detachSound snd) := by
        intro snap2
        rw [createTrack_sounds, List.getElem?_append_left (by rw [hactlen]; exact hltstop)]
        exact hact
      have hbact : (activateState rnd c tracks s).bgmRef = none := stopBgm_bgmRef s
      by_cases hsc : s.currentBgmCategory = some c
      · rw [if_pos hsc, playTrackInQueue_pass _ _ _ (Or.inr hsc)]
        exact hcreate _
      · rw [if_neg hsc]
        cases hsnap : s.currentBgmCategory with
        | none =>
          rw [playTrackInQueue_pass _ _ _ (Or.inl rfl)]
          unfold runDuckingEffect
          rw [createTrack_bgmRef]
          rw [modifySound_get_other _ _ _ _ (by rw [hactlen]; omega)]
          exact hcreate _
        | some a =>
          have hac : a ≠ c := by
            intro hh
            rw [hh] at hsnap
            exact hsc hsnap
          rw [playTrackInQueue_blocked a c _ hac]
          unfold runDuckingEffect
          rw [hbact]
          exact hact

theorem chainOk_step (k : Nat) (s : AppState) (hc : ChainOk k s) :
    (fireEnd s).queue = s.queue ∧
    (fireEnd s).queueIndex = (if k ≤ s.queueIndex + 1 then 0 else s.queueIndex + 1) ∧
    ChainOk k (fireEnd s) := by
  obtain ⟨hqlen, i, snd, hbr, hg, hp, hu, he, hsnapOk⟩ := hc
  have hfe : fireEnd s = endEvent i s := by
    unfold fireEnd
    rw [hbr]
  rw [hfe, endEvent_live i s snd hg hp hu he]
  have hpass : playTrackInQueue snd.snapshotCat snd.categoryArg
      (advanceQueue (modifySound s i markEnded)) =
      createTrack snd.snapshotCat snd.categoryArg
        (advanceQueue (modifySound s i markEnded)) :=
    playTrackInQueue_pass _ _ _ hsnapOk
  rw [hpass]
  have hq : (advanceQueue (modifySound s i markEnded)).queue = s.queue := by
    rw [advanceQueue_queue, modifySound_queue]
  have hqi : (advanceQueue (modifySound s i markEnded)).queueIndex =
      (if k ≤ s.queueIndex + 1 then 0 else s.queueIndex + 1) := by
    rw [advanceQueue_queueIndex, modifySound_queue, modifySound_queueIndex, hqlen]
  refine ⟨by rw [createTrack_queue, hq], by rw [createTrack_queueIndex, hqi], ?_, ?_⟩
  · rw [createTrack_queue, hq]
    exact hqlen
  · refine ⟨(advanceQueue (modifySound s i markEnded)).sounds.length,
      newTrackSound snd.snapshotCat snd.categoryArg
        (advanceQueue (modifySound s i markEnded)), rfl, ?_, rfl, rfl, rfl, ?_⟩
    · rw [createTrack_sounds, List.getElem?_concat_length]
    · exact hsnapOk

theorem chain_iterate (k : Nat) : ∀ (m : Nat) (s : AppState), ChainOk k s →
    s.queueIndex < k →
    (fireEnd^[m] s).queue = s.queue ∧
    (fireEnd^[m] s).queueIndex = (s.queueIndex + m) % k ∧
    ChainOk k (fireEnd^[m] s)
  | 0, s, hc, hidx => by
    refine ⟨rfl, ?_, hc⟩
    rw [Function.iterate_zero_apply, Nat.add_zero, Nat.mod_eq_of_lt hidx]
  | m + 1, s, hc, hidx => by
    obtain ⟨hq1, hqi1, hc1⟩ := chainOk_step k s hc
    have hk : 0 < k := Nat.lt_of_le_of_lt (Nat.zero_le _) hidx
    have hqi1' : (fireEnd s).queueIndex = (s.queueIndex + 1) % k := by
      rw [hqi1]
      by_cases hw : k ≤ s.queueIndex + 1
      · rw [if_pos hw]
        have : s.queueIndex + 1 = k := Nat.le_antisymm hidx hw
        rw [this, Nat.mod_self]
      · rw [if_neg hw]
        rw [Nat.mod_eq_of_lt (Nat.lt_of_not_le hw)]
    have hidx1 : (fireEnd s).queueIndex < k := by
      rw [hqi1']
      exact Nat.mod_lt _ hk
    obtain ⟨hq2, hqi2, hc2⟩ := chain_iterate k m (fireEnd s) hc1 hidx1
    rw [Function.iterate_succ_apply]
    refine ⟨by rw [hq2, hq1], ?_, hc2⟩
    rw [hqi2, hqi1', Nat.mod_add_mod, Nat.add_assoc, Nat.add_comm 1 m]

theorem runDuckingEffect_get_bgm (s : AppState) (n : Nat)
    (h : s.bgmRef = some n) :
    (runDuckingEffect s).sounds[n]? = (s.sounds[n]?).map (fun snd =>
      { snd with fade := some (snd.volume, duckTarget s.isSpeaking, 500) }) := by
  unfold runDuckingEffect
  rw [h]
  exact modifySound_get_self s n _

theorem startPlaylist_activates (assets : BgmMap) (rnd : List Nat)
    (c : String) (s : AppState) (tracks : List String)
    (ha : assets c = some tracks) (hlen : tracks.length ≠ 0)
    (hsc : s.currentBgmCategory = none ∨ s.currentBgmCategory = some c) :
    (startPlaylist assets rnd c s).queue = shuffleArray rnd tracks ∧
    (startPlaylist assets rnd c s).queueIndex = 0 ∧
    ChainOk tracks.length (startPlaylist assets rnd c s) ∧
    (startPlaylist assets rnd c s).bgmRef = some (stopBgm s).sounds.length ∧
    (startPlaylist assets rnd c s).currentBgmCategory = some c := by
  rw [startPlaylist_eq_valid assets rnd c s tracks ha hlen]
  have hqlen : (shuffleArray rnd tracks).length = tracks.length :=
    shuffleArray_length rnd tracks
  rcases hsc with hsc | hsc
  · rw [if_neg (by rw [hsc]; simp), playTrackInQueue_pass _ _ _ (Or.inl hsc)]
    have hbr : (createTrack s.currentBgmCategory c
        (activateState rnd c tracks s)).bgmRef =
        some (activateState rnd c tracks s).sounds.length := createTrack_bgmRef _ _ _
    have hget : (runDuckingEffect (createTrack s.currentBgmCategory c
        (activateState rnd c tracks s))).sounds[(activateState rnd c tracks s).sounds.length]? =
        some { newTrackSound s.currentBgmCategory c (activateState rnd c tracks s) with
               fade := some (0, duckTarget (activateState rnd c tracks s).isSpeaking, 500) } := by
      rw [runDuckingEffect_get_bgm _ _ hbr, createTrack_isSpeaking,
          createTrack_sounds, List.getElem?_concat_length]
      rfl
    refine ⟨by simp [activateState], by simp [activateState], ⟨?_, ?_⟩, ?_, by simp [activateState]⟩
    · rw [runDuckingEffect_queue, createTrack_queue]
      show (shuffleArray rnd tracks).length = tracks.length
      exact hqlen
    · refine ⟨(activateState rnd c tracks s).sounds.length, _,
        by rw [runDuckingEffect_bgmRef, hbr], hget, rfl, rfl, rfl, Or.inl (by simp [newTrackSound, hsc])⟩
    · rw [runDuckingEffect_bgmRef, hbr]
      rfl
  · rw [if_pos hsc, playTrackInQueue_pass _ _ _ (Or.inr hsc)]
    have hget : (createTrack s.currentBgmCategory c
        (activateState rnd c tracks s)).sounds[(activateState rnd c tracks s).sounds.length]? =
        some (newTrackSound s.currentBgmCategory c (activateState rnd c tracks s)) := by
      rw [createTrack_sounds, List.getElem?_concat_length]
    refine ⟨by simp [activateState], by simp [activateState], ⟨?_, ?_⟩, ?_, by simp [activateState]⟩
    · rw [createTrack_queue]
      show (shuffleArray rnd tracks).length = tracks.length
      exact hqlen
    · refine ⟨(activateState rnd c tracks s).sounds.length, _,
        createTrack_bgmRef _ _ _, hget, rfl, rfl, rfl, Or.inr (by simp [newTrackSound, hsc])⟩
    · rw [createTrack_bgmRef]
      rfl

/-! ### Claim theorems -/

/-- **C10**: for every input array (and any draws from the random source),
`shuffleArray` returns a permutation of it: same length and same multiset of
elements (`List.Perm`).  The embedding is a pure function of the draws and
the input — the source builds `newArr = [...array]` and never writes to the
input array, and reads no shared mutable state beyond `Math.random()`. -/
theorem shuffleArray_is_permutation {α : Type} (rnd : List Nat) (l : List α) :
    (shuffleArray rnd l).length = l.length ∧
    List.Perm (shuffleArray rnd l) l :=
  ⟨shuffleArray_length rnd l, shuffleAux_perm rnd l (l.length - 1)⟩

/-- **C4**: for a category with `k` tracks, after `startPlaylist` establishes
the shuffled queue (cursor 0), every completion event only increments the
cursor modulo `k` and never touches the queue: after any `m` completions the
queue is still the activation-time order and the cursor is `m % k`; in
particular after `k` completions the cursor is back at `0` with the queue
unchanged. -/
theorem loop_preserves_queue_order (assets : BgmMap) (rnd : List Nat)
    (c : String) (tracks : List String) (s : AppState)
    (ha : assets c = some tracks) (hne : tracks ≠ [])
    (hsc : s.currentBgmCategory = none ∨ s.currentBgmCategory = some c) :
    (startPlaylist assets rnd c s).queueIndex = 0 ∧
    (∀ m : Nat,
      (fireEnd^[m] (startPlaylist assets rnd c s)).queue =
        (startPlaylist assets rnd c s).queue ∧
      (fireEnd^[m] (startPlaylist assets rnd c s)).queueIndex =
        m % tracks.length) ∧
    (fireEnd^[tracks.length] (startPlaylist assets rnd c s)).queue =
      (startPlaylist assets rnd c s).queue ∧
    (fireEnd^[tracks.length] (startPlaylist assets rnd c s)).queueIndex = 0 := by
  have hlen : tracks.length ≠ 0 := fun h => hne (List.eq_nil_of_length_eq_zero h)
  obtain ⟨hq, hqi, hchain, -, -⟩ :=
    startPlaylist_activates assets rnd c s tracks ha hlen hsc
  have hpos : (startPlaylist assets rnd c s).queueIndex < tracks.length := by
    rw [hqi]
    exact Nat.pos_of_ne_zero hlen
  have hall : ∀ m : Nat,
      (fireEnd^[m] (startPlaylist assets rnd c s)).queue =
        (startPlaylist assets rnd c s).queue ∧
      (fireEnd^[m] (startPlaylist assets rnd c s)).queueIndex =
        m % tracks.length := by
    intro m
    obtain ⟨h1, h2, -⟩ := chain_iterate tracks.length m _ hchain hpos
    refine ⟨h1, ?_⟩
    rw [h2, hqi, Nat.zero_add]
  refine ⟨hqi, hall, (hall tracks.length).1, ?_⟩
  rw [(hall tracks.length).2, Nat.mod_self]

/-- Witness for C4 at the concrete `battle` category (two tracks). -/
theorem loop_preserves_queue_order_witness :
    (fireEnd^[2] (startPlaylist ASSETS_bgm [1] "battle" initState)).queue =
      (startPlaylist ASSETS_bgm [1] "battle" initState).queue ∧
    (fireEnd^[2] (startPlaylist ASSETS_bgm [1] "battle" initState)).queueIndex = 0 :=
  ⟨(loop_preserves_queue_order ASSETS_bgm [1] "battle"
      ["/assets/battle1.mp3", "/assets/battle2.mp3"] initState rfl
      (by decide) (Or.inl rfl)).2.2.1,
   (loop_preserves_queue_order ASSETS_bgm [1] "battle"
      ["/assets/battle1.mp3", "/assets/battle2.mp3"] initState rfl
      (by decide) (Or.inl rfl)).2.2.2⟩

/-- **C2** (counterexample): starting the unknown category `"disco"` while
`battle` is playing is not a no-op on the playing channel: before the call
the channel is playing with its `end` handler attached and no stop
scheduled; after the call `bgmRef` is cleared and the channel has been
detached (`off('end')`), faded out, and scheduled for `stop()/unload()` —
because `stopBgm()` runs before the category lookup. -/
theorem startPlaylist_unknown_stops_music_cex :
    (startPlaylist ASSETS_bgm [0] "battle" initState).bgmRef = some 0 ∧
    ((startPlaylist ASSETS_bgm [0] "battle" initState).sounds[0]?.map
        (fun t => (t.playing, t.hasEnd, t.pendingStop)) =
      some (true, true, none)) ∧
    (startPlaylist ASSETS_bgm [] "disco"
        (startPlaylist ASSETS_bgm [0] "battle" initState)).bgmRef = none ∧
    ((startPlaylist ASSETS_bgm [] "disco"
        (startPlaylist ASSETS_bgm [0] "battle" initState)).sounds[0]?.map
        (fun t => (t.hasEnd, t.pendingStop)) = some (false, some 1000)) := by
  decide

/-- **C2** (amended): calling `startPlaylist` with an unknown category (or
one mapping to an empty track list) equals a bare `stopBgm()`: the queue,
cursor and `CurrentCategory` are unchanged and no alert is raised, but the
currently playing channel is faded out over 1000 ms and released — the
no-op covers only the sequencer state, not the playing channel, because
`stopBgm()` runs before the lookup check. -/
theorem startPlaylist_unknown_is_silent_stop (assets : BgmMap)
    (rnd : List Nat) (c : String) (s : AppState)
    (h : assets c = none ∨ assets c = some []) :
    startPlaylist assets rnd c s = stopBgm s ∧
    (startPlaylist assets rnd c s).queue = s.queue ∧
    (startPlaylist assets rnd c s).queueIndex = s.queueIndex ∧
    (startPlaylist assets rnd c s).currentBgmCategory = s.currentBgmCategory ∧
    (startPlaylist assets rnd c s).alerts = s.alerts := by
  have heq : startPlaylist assets rnd c s = stopBgm s := by
    rcases h with h | h
    · exact startPlaylist_eq_none assets rnd c s h
    · exact startPlaylist_eq_empty assets rnd c s [] h rfl
  refine ⟨heq, ?_, ?_, ?_, ?_⟩ <;> rw [heq] <;> simp

/-- Witness for the amended C2 at the unknown category `"disco"`. -/
theorem startPlaylist_unknown_is_silent_stop_witness :
    startPlaylist ASSETS_bgm [] "disco"
        (startPlaylist ASSETS_bgm [0] "battle" initState) =
      stopBgm (startPlaylist ASSETS_bgm [0] "battle" initState) ∧
    (startPlaylist ASSETS_bgm [] "disco"
        (startPlaylist ASSETS_bgm [0] "battle" initState)).queue =
      (startPlaylist ASSETS_bgm [0] "battle" initState).queue ∧
    (startPlaylist ASSETS_bgm [] "disco"
        (startPlaylist ASSETS_bgm [0] "battle" initState)).queueIndex =
      (startPlaylist ASSETS_bgm [0] "battle" initState).queueIndex ∧
    (startPlaylist ASSETS_bgm [] "disco"
        (startPlaylist ASSETS_bgm [0] "battle" initState)).currentBgmCategory =
      (startPlaylist ASSETS_bgm [0] "battle" initState).currentBgmCategory ∧
    (startPlaylist ASSETS_bgm [] "disco"
        (startPlaylist ASSETS_bgm [0] "battle" initState)).alerts =
      (startPlaylist ASSETS_bgm [0] "battle" initState).alerts :=
  startPlaylist_unknown_is_silent_stop ASSETS_bgm [] "disco"
    (startPlaylist ASSETS_bgm [0] "battle" initState) (Or.inl rfl)

/-- **C3** (counterexample): start `battle`, set the SpeakingFlag (ducking
toward 0.2 is applied to the playing channel), then fire its completion.
The freshly created channel for the next track is started with
`fade(0, 1.0, 2000)` — target `1.0`, not the ducked `0.2 = 1/5` — even
though `isSpeaking` is still `true`: the ducking effect does not rerun on a
track advance (its dependencies `isSpeaking`/`currentBgmCategory` did not
change), so the claimed "target 0.2 if the SpeakingFlag is true" is false. -/
theorem advance_ignores_ducking_cex :
    (fireEnd (setSpeaking true
        (startPlaylist ASSETS_bgm [0] "battle" initState))).isSpeaking = true ∧
    (fireEnd (setSpeaking true
        (startPlaylist ASSETS_bgm [0] "battle" initState))).bgmRef = some 1 ∧
    ((fireEnd (setSpeaking true
        (startPlaylist ASSETS_bgm [0] "battle" initState))).sounds[1]?.map
        (fun t => (t.volume, t.fade)) = some (0, some (0, 1, 2000))) ∧
    ((1 : Rat) = 1/5 → False) :=
  ⟨rfl, rfl, rfl, by norm_num⟩

/-- **C3** (amended): when a completion event advances the playlist, the new
music channel is always created at volume `0` and started with an
unconditional `fade(0, 1.0, 2000)` toward full volume, whatever the
SpeakingFlag is; the ducking state is not consulted, and the SpeakingFlag
itself is untouched by the advance (so during narration the advanced track
heads to full volume until the next SpeakingFlag transition re-runs the
ducking effect). -/
theorem advance_fades_to_full (s : AppState) (i : Nat) (snd : Sound)
    (hg : s.sounds[i]? = some snd) (hp : snd.playing = true)
    (hu : snd.unloaded = false) (he : snd.hasEnd = true)
    (hok : snd.snapshotCat = none ∨ snd.snapshotCat = some snd.categoryArg) :
    (endEvent i s).bgmRef = some s.sounds.length ∧
    ((endEvent i s).sounds[s.sounds.length]?.map
        (fun t => (t.volume, t.fade)) = some (0, some (0, 1, 2000))) ∧
    (endEvent i s).isSpeaking = s.isSpeaking := by
  rw [endEvent_live i s snd hg hp hu he, playTrackInQueue_pass _ _ _ hok]
  have hlen : (advanceQueue (modifySound s i markEnded)).sounds.length =
      s.sounds.length := by
    rw [advanceQueue_sounds, modifySound_length]
  refine ⟨?_, ?_, ?_⟩
  · rw [createTrack_bgmRef, hlen]
  · rw [createTrack_sounds, ← hlen, List.getElem?_concat_length]
    rfl
  · rw [createTrack_isSpeaking, advanceQueue_isSpeaking, modifySound_isSpeaking]

/-- Witness for the amended C3: the concrete advance fired while speaking. -/
theorem advance_fades_to_full_witness :
    (endEvent 0 (setSpeaking true
        (startPlaylist ASSETS_bgm [0] "battle" initState))).bgmRef = some 1 ∧
    ((endEvent 0 (setSpeaking true
        (startPlaylist ASSETS_bgm [0] "battle" initState))).sounds[1]?.map
        (fun t => (t.volume, t.fade)) = some (0, some (0, 1, 2000))) ∧
    (endEvent 0 (setSpeaking true
        (startPlaylist ASSETS_bgm [0] "battle" initState))).isSpeaking =
      (setSpeaking true
        (startPlaylist ASSETS_bgm [0] "battle" initState)).isSpeaking :=
  advance_fades_to_full
    (setSpeaking true (startPlaylist ASSETS_bgm [0] "battle" initState)) 0
    { track := "/assets/battle2.mp3", categoryArg := "battle",
      snapshotCat := none, hasEnd := true, playing := true, unloaded := false,
      volume := 0, fade := some (0, duckTarget true, 500), pendingStop := none }
    rfl rfl rfl rfl (Or.inl rfl)

/-- **C5** (the code at the failing input): with the `battle` playlist
active, `startPlaylist("serene")` switches `CurrentCategory` to `serene`
and installs a fresh two-element queue at cursor 0, but creates **no**
Audio Channel: the guard in `playTrackInQueue` reads the stale render
snapshot `battle` of `currentBgmCategory`, sees it differ from `serene`,
and returns early; the old channel was already faded out, so `bgmRef`
stays empty and the sound store does not grow — silence instead of the
claimed start-at-volume-0-and-fade-in of `queue[0]`. -/
theorem category_switch_creates_no_channel :
    (startPlaylist ASSETS_bgm [0] "battle" initState).bgmRef = some 0 ∧
    (startPlaylist ASSETS_bgm [0] "battle" initState).currentBgmCategory =
      some "battle" ∧
    (startPlaylist ASSETS_bgm [0] "serene"
        (startPlaylist ASSETS_bgm [0] "battle" initState)).currentBgmCategory =
      some "serene" ∧
    (startPlaylist ASSETS_bgm [0] "serene"
        (startPlaylist ASSETS_bgm [0] "battle" initState)).queue.length = 2 ∧
    (startPlaylist ASSETS_bgm [0] "serene"
        (startPlaylist ASSETS_bgm [0] "battle" initState)).queueIndex = 0 ∧
    (startPlaylist ASSETS_bgm [0] "serene"
        (startPlaylist ASSETS_bgm [0] "battle" initState)).bgmRef = none ∧
    (startPlaylist ASSETS_bgm [0] "serene"
        (startPlaylist ASSETS_bgm [0] "battle" initState)).sounds.length =
      (startPlaylist ASSETS_bgm [0] "battle" initState).sounds.length := by
  decide

theorem handleStopClick_eq (s : AppState) :
    handleStopClick s = { stopBgm s with currentBgmCategory := none } := by
  unfold handleStopClick
  by_cases h : s.currentBgmCategory = none
  · rw [if_pos h]
  · rw [if_neg h]
    unfold runDuckingEffect
    rw [show ({ stopBgm s with currentBgmCategory := none } : AppState).bgmRef =
        none from stopBgm_bgmRef s]

theorem timerFire_fires (i : Nat) (s : AppState) (snd : Sound) (d : Nat)
    (hg : s.sounds[i]? = some snd) (hps : snd.pendingStop = some d) :
    timerFire i s = modifySound s i (fun t =>
      { t with playing := false, unloaded := true, fade := none,
               pendingStop := none }) := by
  unfold timerFire
  rw [hg]
  show (match snd.pendingStop with
    | none => s
    | some _ => modifySound s i (fun t =>
        { t with playing := false, unloaded := true, fade := none,
                 pendingStop := none })) = _
  rw [hps]

theorem setSpeaking_ne (b : Bool) (s : AppState) (h : ¬(s.isSpeaking = b)) :
    setSpeaking b s = runDuckingEffect { s with isSpeaking := b } := by
  unfold setSpeaking
  rw [if_neg h]

theorem setSpeaking_eq (b : Bool) (s : AppState) (h : s.isSpeaking = b) :
    setSpeaking b s = s := by
  unfold setSpeaking
  rw [if_pos h]

/-- **C6**: a SpeakingFlag transition to `true` retargets the active music
channel's fade to `0.2 = 1/5` over 500 ms from its current volume; the
transition back to `false` retargets to exactly `1.0` over 500 ms, so the
round trip ends with target volume exactly `1`; and when no music channel
is active, a SpeakingFlag transition changes nothing but the flag itself. -/
theorem ducking_round_trip :
    (∀ (s : AppState) (i : Nat) (snd : Sound), s.isSpeaking = false →
      s.bgmRef = some i → s.sounds[i]? = some snd →
      (setSpeaking true s).isSpeaking = true ∧
      ((setSpeaking true s).sounds[i]?.map (fun t => t.fade) =
        some (some (snd.volume, 1/5, 500))) ∧
      (setSpeaking false (setSpeaking true s)).isSpeaking = false ∧
      ((setSpeaking false (setSpeaking true s)).sounds[i]?.map
          (fun t => t.fade) = some (some (snd.volume, 1, 500)))) ∧
    (∀ (s : AppState) (b : Bool), s.bgmRef = none →
      setSpeaking b s = { s with isSpeaking := b }) := by
  constructor
  · intro s i snd hs hbr hg
    have hne : ¬(s.isSpeaking = true) := by
      rw [hs]
      simp
    have h1 : setSpeaking true s =
        runDuckingEffect { s with isSpeaking := true } := setSpeaking_ne true s hne
    have hbr1 : ({ s with isSpeaking := true } : AppState).bgmRef = some i := hbr
    have hget1 : (setSpeaking true s).sounds[i]? =
        some { snd with fade := some (snd.volume, duckTarget true, 500) } := by
      rw [h1, runDuckingEffect_get_bgm _ i hbr1]
      rw [show ({ s with isSpeaking := true } : AppState).sounds[i]? =
          some snd from hg]
      rfl
    have hsp1 : (setSpeaking true s).isSpeaking = true := by
      rw [h1, runDuckingEffect_isSpeaking]
    have hbr1x : (setSpeaking true s).bgmRef = some i := by
      rw [h1, runDuckingEffect_bgmRef]
      exact hbr1
    have hne2 : ¬((setSpeaking true s).isSpeaking = false) := by
      rw [hsp1]
      simp
    have h2 : setSpeaking false (setSpeaking true s) =
        runDuckingEffect { setSpeaking true s with isSpeaking := false } :=
      setSpeaking_ne false (setSpeaking true s) hne2
    have hbr2 : ({ setSpeaking true s with isSpeaking := false } :
        AppState).bgmRef = some i := hbr1x
    have hget2 : (setSpeaking false (setSpeaking true s)).sounds[i]? =
        some { snd with fade := some (snd.volume, duckTarget false, 500) } := by
      rw [h2, runDuckingEffect_get_bgm _ i hbr2]
      rw [show ({ setSpeaking true s with isSpeaking := false } :
          AppState).sounds[i]? =
          some { snd with fade := some (snd.volume, duckTarget true, 500) }
          from hget1]
      rfl
    refine ⟨hsp1, ?_, ?_, ?_⟩
    · rw [hget1]
      rfl
    · rw [h2, runDuckingEffect_isSpeaking]
    · rw [hget2]
      rfl
  · intro s b h
    by_cases hb : s.isSpeaking = b
    · rw [setSpeaking_eq b s hb, ← hb]
    · rw [setSpeaking_ne b s hb]
      unfold runDuckingEffect
      rw [show ({ s with isSpeaking := b } : AppState).bgmRef = none from h]

/-- Witness for C6: the concrete duck round trip on the playing `battle`
channel, and a no-channel transition from the initial state. -/
theorem ducking_round_trip_witness :
    ((setSpeaking true
        (startPlaylist ASSETS_bgm [0] "battle" initState)).isSpeaking = true ∧
     ((setSpeaking true
        (startPlaylist ASSETS_bgm [0] "battle" initState)).sounds[0]?.map
        (fun t => t.fade) = some (some (0, 1/5, 500))) ∧
     (setSpeaking false (setSpeaking true
        (startPlaylist ASSETS_bgm [0] "battle" initState))).isSpeaking = false ∧
     ((setSpeaking false (setSpeaking true
        (startPlaylist ASSETS_bgm [0] "battle" initState))).sounds[0]?.map
        (fun t => t.fade) = some (some (0, 1, 500)))) ∧
    setSpeaking true initState = { initState with isSpeaking := true } :=
  ⟨ducking_round_trip.1 (startPlaylist ASSETS_bgm [0] "battle" initState) 0
    { track := "/assets/battle2.mp3", categoryArg := "battle",
      snapshotCat := none, hasEnd := true, playing := true, unloaded := false,
      volume := 0, fade := some (0, duckTarget false, 500), pendingStop := none }
    rfl rfl rfl,
   ducking_round_trip.2 initState true rfl⟩

/-- **C7**: after `stop()` (the stop button: `stopBgm` plus clearing
`CurrentCategory`), the old channel's `end` handler is removed — delivering
its completion changes neither queue, cursor, category, `bgmRef`, nor the
number of channels — the channel is fading to `0` over 1000 ms with a
1000 ms timer scheduled, and when that timer fires the sound is stopped and
unloaded (the resource is released). -/
theorem stop_silences_and_releases (s : AppState) (i : Nat) (snd : Sound)
    (hbr : s.bgmRef = some i) (hg : s.sounds[i]? = some snd) :
    ((handleStopClick s).sounds[i]?.map
        (fun t => (t.hasEnd, t.fade, t.pendingStop)) =
      some (false, some (snd.volume, 0, 1000), some 1000)) ∧
    (handleStopClick s).currentBgmCategory = none ∧
    (handleStopClick s).bgmRef = none ∧
    ((endEvent i (handleStopClick s)).queue = (handleStopClick s).queue ∧
     (endEvent i (handleStopClick s)).queueIndex =
       (handleStopClick s).queueIndex ∧
     (endEvent i (handleStopClick s)).currentBgmCategory =
       (handleStopClick s).currentBgmCategory ∧
     (endEvent i (handleStopClick s)).bgmRef = (handleStopClick s).bgmRef ∧
     (endEvent i (handleStopClick s)).sounds.length =
       (handleStopClick s).sounds.length) ∧
    ((timerFire i (handleStopClick s)).sounds[i]?.map
        (fun t => (t.playing, t.unloaded)) = some (false, true)) := by
  have heq := handleStopClick_eq s
  have hgets : (handleStopClick s).sounds[i]? = some (detachSound snd) := by
    rw [heq]
    show (stopBgm s).sounds[i]? = some (detachSound snd)
    rw [stopBgm_get_bgm s i hbr, hg]
    rfl
  have hbrs : (handleStopClick s).bgmRef = none := by
    rw [heq]
    exact stopBgm_bgmRef s
  have hcats : (handleStopClick s).currentBgmCategory = none := by rw [heq]
  refine ⟨?_, hcats, hbrs, ?_, ?_⟩
  · rw [hgets]
    rfl
  · refine endEvent_fields_of_not_live i _ (fun t ht => ?_)
    rw [hgets] at ht
    injection ht with ht
    rw [← ht]
    rfl
  · rw [timerFire_fires i (handleStopClick s) (detachSound snd) 1000 hgets rfl,
        modifySound_get_self, hgets]
    rfl

/-- Witness for C7 on the playing `battle` channel. -/
theorem stop_silences_and_releases_witness :
    (((handleStopClick (startPlaylist ASSETS_bgm [0] "battle"
        initState)).sounds[0]?.map
        (fun t => (t.hasEnd, t.fade, t.pendingStop)) =
      some (false, some (0, 0, 1000), some 1000))) ∧
    (handleStopClick (startPlaylist ASSETS_bgm [0] "battle"
      initState)).currentBgmCategory = none ∧
    (handleStopClick (startPlaylist ASSETS_bgm [0] "battle"
      initState)).bgmRef = none ∧
    ((endEvent 0 (handleStopClick (startPlaylist ASSETS_bgm [0] "battle"
        initState))).queue =
       (handleStopClick (startPlaylist ASSETS_bgm [0] "battle"
        initState)).queue ∧
     (endEvent 0 (handleStopClick (startPlaylist ASSETS_bgm [0] "battle"
        initState))).queueIndex =
       (handleStopClick (startPlaylist ASSETS_bgm [0] "battle"
        initState)).queueIndex ∧
     (endEvent 0 (handleStopClick (startPlaylist ASSETS_bgm [0] "battle"
        initState))).currentBgmCategory =
       (handleStopClick (startPlaylist ASSETS_bgm [0] "battle"
        initState)).currentBgmCategory ∧
     (endEvent 0 (handleStopClick (startPlaylist ASSETS_bgm [0] "battle"
        initState))).bgmRef =
       (handleStopClick (startPlaylist ASSETS_bgm [0] "battle"
        initState)).bgmRef ∧
     (endEvent 0 (handleStopClick (startPlaylist ASSETS_bgm [0] "battle"
        initState))).sounds.length =
       (handleStopClick (startPlaylist ASSETS_bgm [0] "battle"
        initState)).sounds.length) ∧
    ((timerFire 0 (handleStopClick (startPlaylist ASSETS_bgm [0] "battle"
        initState))).sounds[0]?.map
        (fun t => (t.playing, t.unloaded)) = some (false, true)) :=
  stop_silences_and_releases
    (startPlaylist ASSETS_bgm [0] "battle" initState) 0
    { track := "/assets/battle2.mp3", categoryArg := "battle",
      snapshotCat := none, hasEnd := true, playing := true, unloaded := false,
      volume := 0, fade := some (0, duckTarget false, 500), pendingStop := none }
    rfl rfl

/-- **C8**: when the narration provider round trip ends in an error object
(`data.error`), no narration channel is created, the SpeakingFlag stays
`false` (the handler never touches it), the loading flag is back to `false`
(the `finally` clause), and the provider's message is surfaced to the user
through `alert("Error: " + message)`. -/
theorem narrate_provider_error (s : AppState) (msg : String)
    (hk : ¬(s.apiKey = "")) (ht : ¬(s.narratorText = ""))
    (hs : s.isSpeaking = false) :
    (handleNarrate (Except.error msg) s).narrCreated = s.narrCreated ∧
    (handleNarrate (Except.error msg) s).isSpeaking = false ∧
    (handleNarrate (Except.error msg) s).isLoadingTTS = false ∧
    (handleNarrate (Except.error msg) s).alerts =
      s.alerts ++ ["Error: " ++ msg] ∧
    (handleNarrate (Except.error msg) s).fetchCount = s.fetchCount + 1 := by
  unfold handleNarrate
  rw [if_neg hk, if_neg ht]
  exact ⟨rfl, hs, rfl, rfl, rfl⟩

/-- Witness for C8 at a configured state with a failing provider. -/
theorem narrate_provider_error_witness :
    (handleNarrate (Except.error "quota exceeded")
      { initState with apiKey := "k", narratorText := "a scene" }).narrCreated =
      ({ initState with apiKey := "k", narratorText := "a scene" } :
        AppState).narrCreated ∧
    (handleNarrate (Except.error "quota exceeded")
      { initState with apiKey := "k", narratorText := "a scene" }).isSpeaking =
      false ∧
    (handleNarrate (Except.error "quota exceeded")
      { initState with apiKey := "k", narratorText := "a scene" }).isLoadingTTS =
      false ∧
    (handleNarrate (Except.error "quota exceeded")
      { initState with apiKey := "k", narratorText := "a scene" }).alerts =
      ({ initState with apiKey := "k", narratorText := "a scene" } :
        AppState).alerts ++ ["Error: " ++ "quota exceeded"] ∧
    (handleNarrate (Except.error "quota exceeded")
      { initState with apiKey := "k", narratorText := "a scene" }).fetchCount =
      ({ initState with apiKey := "k", narratorText := "a scene" } :
        AppState).fetchCount + 1 :=
  narrate_provider_error
    { initState with apiKey := "k", narratorText := "a scene" }
    "quota exceeded" (by decide) (by decide) rfl

/-- **C9**: `narrate` with no credential configured stops before any
provider call: the only effect is the surfaced missing-key alert (fetch
count, loading flag, SpeakingFlag and narration-channel count unchanged);
`narrate` with a credential but empty text is a complete no-op — no
provider call, no alert, loading and speaking flags unchanged. -/
theorem narrate_config_rejections (s : AppState) (resp : Except String Unit) :
    (s.apiKey = "" →
      handleNarrate resp s =
        { s with alerts :=
            s.alerts ++ ["Please enter a Google Cloud API Key first."] } ∧
      (handleNarrate resp s).fetchCount = s.fetchCount ∧
      (handleNarrate resp s).isLoadingTTS = s.isLoadingTTS ∧
      (handleNarrate resp s).isSpeaking = s.isSpeaking ∧
      (handleNarrate resp s).narrCreated = s.narrCreated) ∧
    (¬(s.apiKey = "") → s.narratorText = "" → handleNarrate resp s = s) := by
  constructor
  · intro h
    have heq : handleNarrate resp s =
        { s with alerts :=
            s.alerts ++ ["Please enter a Google Cloud API Key first."] } := by
      unfold handleNarrate
      rw [if_pos h]
    refine ⟨heq, ?_, ?_, ?_, ?_⟩ <;> rw [heq]
  · intro h1 h2
    unfold handleNarrate
    rw [if_neg h1, if_pos h2]

/-- Witness for C9: missing credential at the initial state, and empty text
with a credential configured. -/
theorem narrate_config_rejections_witness :
    (handleNarrate (Except.ok ()) initState =
      { initState with alerts :=
          initState.alerts ++ ["Please enter a Google Cloud API Key first."] } ∧
     (handleNarrate (Except.ok ()) initState).fetchCount =
       initState.fetchCount ∧
     (handleNarrate (Except.ok ()) initState).isLoadingTTS =
       initState.isLoadingTTS ∧
     (handleNarrate (Except.ok ()) initState).isSpeaking =
       initState.isSpeaking ∧
     (handleNarrate (Except.ok ()) initState).narrCreated =
       initState.narrCreated) ∧
    handleNarrate (Except.ok ()) { initState with apiKey := "k" } =
      { initState with apiKey := "k" } :=
  ⟨(narrate_config_rejections initState (Except.ok ())).1 rfl,
   (narrate_config_rejections { initState with apiKey := "k" }
      (Except.ok ())).2 (by decide) rfl⟩

/-- **C1**: (a) after `start(A)` followed by `start(B)` before A's track
completes, delivering the completion of A's channel (index 0) changes
neither the queue, the cursor, the category, `bgmRef`, nor the number of
music channels — `stopBgm` removed its `end` handler, so the stale
completion is inert; (b) in any reachable state, a completion delivered to
a channel whose creation-time category differs from `CurrentCategory` is
discarded without touching the queue, the cursor, the category, `bgmRef`,
or the channel count (by the live-channel invariant such a channel can no
longer have its `end` handler attached). -/
theorem stale_completion_is_inert :
    (∀ (assets : BgmMap) (rnd1 rnd2 : List Nat) (A B : String)
        (trA : List String), assets A = some trA → trA ≠ [] →
      (endEvent 0 (startPlaylist assets rnd2 B
          (startPlaylist assets rnd1 A initState))).queue =
        (startPlaylist assets rnd2 B
          (startPlaylist assets rnd1 A initState)).queue ∧
      (endEvent 0 (startPlaylist assets rnd2 B
          (startPlaylist assets rnd1 A initState))).queueIndex =
        (startPlaylist assets rnd2 B
          (startPlaylist assets rnd1 A initState)).queueIndex ∧
      (endEvent 0 (startPlaylist assets rnd2 B
          (startPlaylist assets rnd1 A initState))).currentBgmCategory =
        (startPlaylist assets rnd2 B
          (startPlaylist assets rnd1 A initState)).currentBgmCategory ∧
      (endEvent 0 (startPlaylist assets rnd2 B
          (startPlaylist assets rnd1 A initState))).bgmRef =
        (startPlaylist assets rnd2 B
          (startPlaylist assets rnd1 A initState)).bgmRef ∧
      (endEvent 0 (startPlaylist assets rnd2 B
          (startPlaylist assets rnd1 A initState))).sounds.length =
        (startPlaylist assets rnd2 B
          (startPlaylist assets rnd1 A initState)).sounds.length) ∧
    (∀ (assets : BgmMap) (s : AppState), Reachable assets s →
      ∀ (i : Nat) (snd : Sound), s.sounds[i]? = some snd →
        ¬(s.currentBgmCategory = some snd.categoryArg) →
        (endEvent i s).queue = s.queue ∧
        (endEvent i s).queueIndex = s.queueIndex ∧
        (endEvent i s).currentBgmCategory = s.currentBgmCategory ∧
        (endEvent i s).bgmRef = s.bgmRef ∧
        (endEvent i s).sounds.length = s.sounds.length) := by
  constructor
  · intro assets rnd1 rnd2 A B trA ha hne
    have hlen : trA.length ≠ 0 := fun h => hne (List.eq_nil_of_length_eq_zero h)
    obtain ⟨-, -, hchain, hbr, -⟩ :=
      startPlaylist_activates assets rnd1 A initState trA ha hlen (Or.inl rfl)
    have hbr0 : (startPlaylist assets rnd1 A initState).bgmRef = some 0 := by
      rw [hbr]
      rfl
    obtain ⟨-, i, snd, hbr1, hg1, -, -, -, -⟩ := hchain
    have hi0 : i = 0 := by
      rw [hbr0] at hbr1
      injection hbr1 with h
      exact h.symm
    subst hi0
    have hdet := startPlaylist_detaches assets rnd2 B
      (startPlaylist assets rnd1 A initState) 0 snd hbr0 hg1
    exact endEvent_fields_of_not_live 0 _ (fun t ht => by
      rw [hdet] at ht
      injection ht with ht
      rw [← ht]
      rfl)
  · intro assets s hr i snd hg hmis
    have hinv := reachable_liveInv assets s hr
    by_cases hp : snd.playing = true
    · by_cases hu : snd.unloaded = true
      · rw [endEvent_dead i s snd hg (Or.inr hu)]
        exact ⟨rfl, rfl, rfl, rfl, rfl⟩
      · by_cases he : snd.hasEnd = true
        · obtain ⟨-, hcat⟩ := hinv i snd hg hp he
          exact absurd hcat hmis
        · rw [endEvent_detached i s snd hg hp (by simpa using hu)
              (by simpa using he)]
          exact ⟨modifySound_queue .., modifySound_queueIndex ..,
                 modifySound_category .., modifySound_bgmRef ..,
                 modifySound_length ..⟩
    · rw [endEvent_dead i s snd hg (Or.inl (by simpa using hp))]
      exact ⟨rfl, rfl, rfl, rfl, rfl⟩

/-- Witness for C1: the concrete `battle` → `serene` switch with A's stale
completion delivered afterwards, and a reachable stopped state whose
lingering channel's category no longer matches `CurrentCategory`. -/
theorem stale_completion_is_inert_witness :
    ((endEvent 0 (startPlaylist ASSETS_bgm [0] "serene"
        (startPlaylist ASSETS_bgm [0] "battle" initState))).queue =
      (startPlaylist ASSETS_bgm [0] "serene"
        (startPlaylist ASSETS_bgm [0] "battle" initState)).queue ∧
     (endEvent 0 (startPlaylist ASSETS_bgm [0] "serene"
        (startPlaylist ASSETS_bgm [0] "battle" initState))).queueIndex =
      (startPlaylist ASSETS_bgm [0] "serene"
        (startPlaylist ASSETS_bgm [0] "battle" initState)).queueIndex ∧
     (endEvent 0 (startPlaylist ASSETS_bgm [0] "serene"
        (startPlaylist ASSETS_bgm [0] "battle" initState))).currentBgmCategory =
      (startPlaylist ASSETS_bgm [0] "serene"
        (startPlaylist ASSETS_bgm [0] "battle" initState)).currentBgmCategory ∧
     (endEvent 0 (startPlaylist ASSETS_bgm [0] "serene"
        (startPlaylist ASSETS_bgm [0] "battle" initState))).bgmRef =
      (startPlaylist ASSETS_bgm [0] "serene"
        (startPlaylist ASSETS_bgm [0] "battle" initState)).bgmRef ∧
     (endEvent 0 (startPlaylist ASSETS_bgm [0] "serene"
        (startPlaylist ASSETS_bgm [0] "battle" initState))).sounds.length =
      (startPlaylist ASSETS_bgm [0] "serene"
        (startPlaylist ASSETS_bgm [0] "battle" initState)).sounds.length) ∧
    ((endEvent 0 (handleStopClick
        (startPlaylist ASSETS_bgm [0] "battle" initState))).queue =
      (handleStopClick
        (startPlaylist ASSETS_bgm [0] "battle" initState)).queue ∧
     (endEvent 0 (handleStopClick
        (startPlaylist ASSETS_bgm [0] "battle" initState))).queueIndex =
      (handleStopClick
        (startPlaylist ASSETS_bgm [0] "battle" initState)).queueIndex ∧
     (endEvent 0 (handleStopClick
        (startPlaylist ASSETS_bgm [0] "battle" initState))).currentBgmCategory =
      (handleStopClick
        (startPlaylist ASSETS_bgm [0] "battle" initState)).currentBgmCategory ∧
     (endEvent 0 (handleStopClick
        (startPlaylist ASSETS_bgm [0] "battle" initState))).bgmRef =
      (handleStopClick
        (startPlaylist ASSETS_bgm [0] "battle" initState)).bgmRef ∧
     (endEvent 0 (handleStopClick
        (startPlaylist ASSETS_bgm [0] "battle" initState))).sounds.length =
      (handleStopClick
        (startPlaylist ASSETS_bgm [0] "battle" initState)).sounds.length) :=
  ⟨stale_completion_is_inert.1 ASSETS_bgm [0] [0] "battle" "serene"
      ["/assets/battle1.mp3", "/assets/battle2.mp3"] rfl (by decide),
   stale_completion_is_inert.2 ASSETS_bgm
      (handleStopClick (startPlaylist ASSETS_bgm [0] "battle" initState))
      (Reachable.stopClick _
        (Reachable.start initState [0] "battle" Reachable.init)) 0
      { track := "/assets/battle2.mp3", categoryArg := "battle",
        snapshotCat := none, hasEnd := false, playing := true,
        unloaded := false, volume := 0, fade := some (0, 0, 1000),
        pendingStop := some 1000 }
      rfl (by decide)⟩
